import Mathlib

/-!
Verification of the Electric-Field-Simulator engine: a shallow embedding of
the geometry field evaluators (src/geometries/*.py), the collision predicate
and the particle-animation callback (src/callbacks/particle_simulation.py),
together with theorems settling the specification claims.

Python floats are modelled by real numbers; numpy length-3 arrays by `Vec3`.
Loops accumulating into arrays are modelled per observation point (the source
loops over `obs_points` carry no cross-point state), with `Finset.sum` for the
discretization loops.
-/

open Classical

/-- A 3-component real vector, modelling the numpy length-3 float arrays. -/
@[ext] structure Vec3 where
  x : ℝ
  y : ℝ
  z : ℝ

namespace Vec3

def add (a b : Vec3) : Vec3 := ⟨a.x + b.x, a.y + b.y, a.z + b.z⟩

def sub (a b : Vec3) : Vec3 := ⟨a.x - b.x, a.y - b.y, a.z - b.z⟩

def smul (c : ℝ) (a : Vec3) : Vec3 := ⟨c * a.x, c * a.y, c * a.z⟩

instance : Add Vec3 := ⟨add⟩

instance : Sub Vec3 := ⟨sub⟩

instance : SMul ℝ Vec3 := ⟨smul⟩

instance : Zero Vec3 := ⟨⟨0, 0, 0⟩⟩

/-- Squared euclidean norm, `np.sum(v**2)`. -/
def normSq (v : Vec3) : ℝ := v.x ^ 2 + v.y ^ 2 + v.z ^ 2

/-- Euclidean norm, `np.sqrt(np.sum(v**2))` / `np.linalg.norm`. -/
noncomputable def norm (v : Vec3) : ℝ := Real.sqrt v.normSq

@[simp] theorem add_x (a b : Vec3) : (a + b).x = a.x + b.x := rfl

@[simp] theorem add_y (a b : Vec3) : (a + b).y = a.y + b.y := rfl

@[simp] theorem add_z (a b : Vec3) : (a + b).z = a.z + b.z := rfl

@[simp] theorem sub_x (a b : Vec3) : (a - b).x = a.x - b.x := rfl

@[simp] theorem sub_y (a b : Vec3) : (a - b).y = a.y - b.y := rfl

@[simp] theorem sub_z (a b : Vec3) : (a - b).z = a.z - b.z := rfl

@[simp] theorem smul_x (r : ℝ) (a : Vec3) : (r • a).x = r * a.x := rfl

@[simp] theorem smul_y (r : ℝ) (a : Vec3) : (r • a).y = r * a.y := rfl

@[simp] theorem smul_z (r : ℝ) (a : Vec3) : (r • a).z = r * a.z := rfl

@[simp] theorem zero_x : (0 : Vec3).x = 0 := rfl

@[simp] theorem zero_y : (0 : Vec3).y = 0 := rfl

@[simp] theorem zero_z : (0 : Vec3).z = 0 := rfl

instance : AddCommMonoid Vec3 where
  add := (· + ·)
  zero := 0
  nsmul := nsmulRec
  add_assoc a b c := by ext <;> simp <;> ring
  zero_add a := by ext <;> simp
  add_zero a := by ext <;> simp
  add_comm a b := by ext <;> simp <;> ring

@[simp] theorem add_def (a b c d e f : ℝ) :
    (Vec3.mk a b c) + (Vec3.mk d e f) = Vec3.mk (a + d) (b + e) (c + f) := rfl

@[simp] theorem sub_def (a b c d e f : ℝ) :
    (Vec3.mk a b c) - (Vec3.mk d e f) = Vec3.mk (a - d) (b - e) (c - f) := rfl

@[simp] theorem smul_def (r a b c : ℝ) :
    r • (Vec3.mk a b c) = Vec3.mk (r * a) (r * b) (r * c) := rfl

@[simp] theorem zero_def : (0 : Vec3) = Vec3.mk 0 0 0 := rfl

@[simp] theorem mk_x (a b c : ℝ) : (Vec3.mk a b c).x = a := rfl

@[simp] theorem mk_y (a b c : ℝ) : (Vec3.mk a b c).y = b := rfl

@[simp] theorem mk_z (a b c : ℝ) : (Vec3.mk a b c).z = c := rfl

theorem sub_zero_vec (v : Vec3) : v - Vec3.mk 0 0 0 = v := by
  show Vec3.mk (v.x - 0) (v.y - 0) (v.z - 0) = v
  simp

theorem add_zero_vec (v : Vec3) : v + 0 = v := by ext <;> simp

theorem zero_add_vec (v : Vec3) : (0 : Vec3) + v = v := by ext <;> simp

theorem smul_zero_vec (r : ℝ) : r • (0 : Vec3) = 0 := by ext <;> simp

theorem zero_smul_vec (v : Vec3) : (0 : ℝ) • v = 0 := by ext <;> simp

theorem norm_nonneg (v : Vec3) : 0 ≤ v.norm := Real.sqrt_nonneg _

theorem norm_smul (c : ℝ) (v : Vec3) : (c • v).norm = |c| * v.norm := by
  show Real.sqrt ((c * v.x) ^ 2 + (c * v.y) ^ 2 + (c * v.z) ^ 2)
      = |c| * Real.sqrt (v.x ^ 2 + v.y ^ 2 + v.z ^ 2)
  rw [show (c * v.x) ^ 2 + (c * v.y) ^ 2 + (c * v.z) ^ 2
        = c ^ 2 * (v.x ^ 2 + v.y ^ 2 + v.z ^ 2) from by ring,
      Real.sqrt_mul (sq_nonneg c), Real.sqrt_sq_eq_abs]

theorem norm_xAxis (a : ℝ) : (Vec3.mk a 0 0).norm = |a| := by
  show Real.sqrt (a ^ 2 + 0 ^ 2 + 0 ^ 2) = |a|
  rw [show a ^ 2 + 0 ^ 2 + 0 ^ 2 = a ^ 2 from by ring, Real.sqrt_sq_eq_abs]

theorem norm_zAxis (a : ℝ) : (Vec3.mk 0 0 a).norm = |a| := by
  show Real.sqrt (0 ^ 2 + 0 ^ 2 + a ^ 2) = |a|
  rw [show 0 ^ 2 + 0 ^ 2 + a ^ 2 = a ^ 2 from by ring, Real.sqrt_sq_eq_abs]

@[simp] theorem norm_zero : (Vec3.mk 0 0 0).norm = 0 := by
  rw [norm_xAxis]; simp

end Vec3

/-- `config.EPSILON_0`, vacuum permittivity from src/config.py. -/
noncomputable def EPSILON_0 : ℝ := 8.854187817e-12

namespace ChargedSphere

/-- Field of a uniformly charged spherical shell at one observation point
(src/geometries/charged_sphere.py, compute_field_sphere, per-point body of
the loop): zero at distance at most `radius` from the center, point-charge
field of total charge `4*pi*radius^2*sigma` outside. -/
noncomputable def compute_field_sphere (center : Vec3) (radius sigma : ℝ)
    (obs : Vec3) (epsilon_0 : ℝ) : Vec3 :=
  if (obs - center).norm ≤ radius then Vec3.mk 0 0 0
  else ((4 * Real.pi * radius ^ 2 * sigma)
        / (4 * Real.pi * epsilon_0 * (obs - center).norm ^ 3)) • (obs - center)

/-- Potential of a uniformly charged spherical shell at one observation point
(src/geometries/charged_sphere.py, compute_potential_sphere). -/
noncomputable def compute_potential_sphere (center : Vec3) (radius sigma : ℝ)
    (obs : Vec3) (epsilon_0 : ℝ) : ℝ :=
  if (obs - center).norm ≤ radius then
    (4 * Real.pi * radius ^ 2 * sigma) / (4 * Real.pi * epsilon_0 * radius)
  else
    (4 * Real.pi * radius ^ 2 * sigma) / (4 * Real.pi * epsilon_0 * (obs - center).norm)

/-- Point-field for the particle animation (src/geometries/charged_sphere.py,
E_point): the shell field with center at the origin. -/
noncomputable def E_point (r_point : Vec3) (sigma radius epsilon_0 : ℝ) : Vec3 :=
  compute_field_sphere (Vec3.mk 0 0 0) radius sigma r_point epsilon_0

/-- Background-grid spacing of the sphere module
(src/geometries/charged_sphere.py line 49). -/
def grid_step (N : ℚ) : ℚ := max (0.8 * 20 / N) 0.2

end ChargedSphere

namespace ChargedRing

/-- Field of a charged ring at one observation point
(src/geometries/charged_ring.py, compute_field_ring): superposition of
N_segments point charges dq = sigma * (radius * dtheta) on the circle,
skipping source points closer than 1e-8. -/
noncomputable def compute_field_ring (center : Vec3) (radius sigma : ℝ)
    (obs : Vec3) (epsilon_0 : ℝ) (N_segments : ℕ) : Vec3 :=
  Finset.sum (Finset.range N_segments) (fun i =>
    if 1e-8 < (obs - Vec3.mk (center.x + radius * Real.cos (i * (2 * Real.pi / N_segments)))
                             (center.y + radius * Real.sin (i * (2 * Real.pi / N_segments)))
                             center.z).norm then
      ((sigma * (radius * (2 * Real.pi / N_segments)))
        / (4 * Real.pi * epsilon_0
            * (obs - Vec3.mk (center.x + radius * Real.cos (i * (2 * Real.pi / N_segments)))
                             (center.y + radius * Real.sin (i * (2 * Real.pi / N_segments)))
                             center.z).norm ^ 3))
        • (obs - Vec3.mk (center.x + radius * Real.cos (i * (2 * Real.pi / N_segments)))
                         (center.y + radius * Real.sin (i * (2 * Real.pi / N_segments)))
                         center.z)
    else 0)

/-- Point-field for the particle animation (src/geometries/charged_ring.py,
E_point): ring field at the origin with N_segments = 100 + N. -/
noncomputable def E_point (r_point : Vec3) (sigma radius epsilon_0 : ℝ) (N : ℕ) : Vec3 :=
  compute_field_ring (Vec3.mk 0 0 0) radius sigma r_point epsilon_0 (100 + N)

/-- Background-grid spacing of the ring module
(src/geometries/charged_ring.py line 61). -/
def grid_step (N : ℚ) : ℚ := max (0.8 * 20 / N) 0.2

end ChargedRing

namespace ChargedCylinder

/-- Field of a charged cylindrical lateral surface at one observation point
(src/geometries/charged_cylinder.py, compute_field_cylinder): an
N_theta x N_z grid of point charges dq = sigma * (radius * dtheta * dz),
skipping source points closer than 1e-6. -/
noncomputable def compute_field_cylinder (center : Vec3) (radius height sigma : ℝ)
    (obs : Vec3) (N_theta N_z : ℕ) (epsilon_0 : ℝ) : Vec3 :=
  Finset.sum (Finset.range N_theta) (fun i =>
    Finset.sum (Finset.range N_z) (fun j =>
      if 1e-6 < (obs - Vec3.mk (center.x + radius * Real.cos (i * (2 * Real.pi / N_theta)))
                               (center.y + radius * Real.sin (i * (2 * Real.pi / N_theta)))
                               (center.z - height / 2 + j * (height / N_z))).norm then
        ((sigma * (radius * (2 * Real.pi / N_theta) * (height / N_z)))
          / (4 * Real.pi * epsilon_0
              * (obs - Vec3.mk (center.x + radius * Real.cos (i * (2 * Real.pi / N_theta)))
                               (center.y + radius * Real.sin (i * (2 * Real.pi / N_theta)))
                               (center.z - height / 2 + j * (height / N_z))).norm ^ 3))
          • (obs - Vec3.mk (center.x + radius * Real.cos (i * (2 * Real.pi / N_theta)))
                           (center.y + radius * Real.sin (i * (2 * Real.pi / N_theta)))
                           (center.z - height / 2 + j * (height / N_z)))
      else 0))

/-- Point-field for the particle animation
(src/geometries/charged_cylinder.py, E_point): cylinder field at the origin
with N_theta = N_z = max 20 (40 + N). -/
noncomputable def E_point (r_point : Vec3) (sigma radius height : ℝ) (N : ℕ)
    (epsilon_0 : ℝ) : Vec3 :=
  compute_field_cylinder (Vec3.mk 0 0 0) radius height sigma r_point
    (max 20 (40 + N)) (max 20 (40 + N)) epsilon_0

/-- Background-grid spacing of the cylinder module
(src/geometries/charged_cylinder.py line 75). -/
def grid_step (N : ℚ) : ℚ := max (0.8 * 20 / N) 0.2

end ChargedCylinder

namespace ChargedPlate

/-- Field of a charged square plate at one observation point
(src/geometries/charged_plate.py, compute_field_plate): an N x N grid of
point charges dq = sigma * (dx * dy) centered in the cells; a source point
exactly at the observation point contributes zero (the loop's continue). -/
noncomputable def compute_field_plate (center : Vec3) (width height sigma : ℝ)
    (obs : Vec3) (epsilon_0 : ℝ) (N : ℕ) : Vec3 :=
  Finset.sum (Finset.range N) (fun i =>
    Finset.sum (Finset.range N) (fun j =>
      if (obs - Vec3.mk (center.x - width / 2 + (i + 0.5) * (width / N))
                        (center.y - height / 2 + (j + 0.5) * (height / N))
                        center.z).norm = 0 then 0
      else
        ((sigma * (width / N * (height / N)))
          / (4 * Real.pi * epsilon_0
              * (obs - Vec3.mk (center.x - width / 2 + (i + 0.5) * (width / N))
                               (center.y - height / 2 + (j + 0.5) * (height / N))
                               center.z).norm ^ 3))
          • (obs - Vec3.mk (center.x - width / 2 + (i + 0.5) * (width / N))
                           (center.y - height / 2 + (j + 0.5) * (height / N))
                           center.z)))

/-- Point-field for the particle animation (src/geometries/charged_plate.py,
E_point): plate field at the origin, width = height = 1. -/
noncomputable def E_point (r_point : Vec3) (sigma width height epsilon_0 : ℝ)
    (N : ℕ) : Vec3 :=
  compute_field_plate (Vec3.mk 0 0 0) width height sigma r_point epsilon_0 N

/-- Background-grid spacing of the plate module
(src/geometries/charged_plate.py line 65). -/
def grid_step (N : ℚ) : ℚ := max (0.8 * 20 / N) 0.2

end ChargedPlate

namespace ParallelPlates

/-- Field of two parallel square plates at one observation point
(src/geometries/parallel_plates.py, compute_field_parallel_plates): each
plate is a fixed 20 x 20 grid over a 2 x 2 square, cell charge
dq_k = q_k / area * dA, skipping source points closer than 1e-6. -/
noncomputable def compute_field_parallel_plates (pos1 pos2 : Vec3) (q1 q2 area : ℝ)
    (obs : Vec3) (epsilon_0 : ℝ) : Vec3 :=
  Finset.sum (Finset.range 20) (fun i =>
    Finset.sum (Finset.range 20) (fun j =>
      (if 1e-6 < (obs - Vec3.mk (-(2 : ℝ) / 2 + (i + 0.5) * (2 / 20))
                                (-(2 : ℝ) / 2 + (j + 0.5) * (2 / 20))
                                pos1.z).norm then
        ((q1 / area * (2 / 20 * (2 / 20)))
          / (4 * Real.pi * epsilon_0
              * (obs - Vec3.mk (-(2 : ℝ) / 2 + (i + 0.5) * (2 / 20))
                               (-(2 : ℝ) / 2 + (j + 0.5) * (2 / 20))
                               pos1.z).norm ^ 3))
          • (obs - Vec3.mk (-(2 : ℝ) / 2 + (i + 0.5) * (2 / 20))
                           (-(2 : ℝ) / 2 + (j + 0.5) * (2 / 20))
                           pos1.z)
      else 0) +
      (if 1e-6 < (obs - Vec3.mk (-(2 : ℝ) / 2 + (i + 0.5) * (2 / 20))
                                (-(2 : ℝ) / 2 + (j + 0.5) * (2 / 20))
                                pos2.z).norm then
        ((q2 / area * (2 / 20 * (2 / 20)))
          / (4 * Real.pi * epsilon_0
              * (obs - Vec3.mk (-(2 : ℝ) / 2 + (i + 0.5) * (2 / 20))
                               (-(2 : ℝ) / 2 + (j + 0.5) * (2 / 20))
                               pos2.z).norm ^ 3))
          • (obs - Vec3.mk (-(2 : ℝ) / 2 + (i + 0.5) * (2 / 20))
                           (-(2 : ℝ) / 2 + (j + 0.5) * (2 / 20))
                           pos2.z)
      else 0)))

/-- Point-field for the particle animation (src/geometries/parallel_plates.py,
E_point): plates of area 2*2 = 4 at z = -distance/2 and z = +distance/2 with
charges q1 = sigma*area and q2 = sigma*area with the sign optionally inverted. -/
noncomputable def E_point (r_point : Vec3) (sigma distance : ℝ)
    (invert_signo : Bool) (epsilon_0 : ℝ) : Vec3 :=
  compute_field_parallel_plates
    (Vec3.mk 0 0 (-distance / 2)) (Vec3.mk 0 0 (distance / 2))
    (sigma * (2 * 2))
    (if invert_signo then -(sigma * (2 * 2)) else sigma * (2 * 2))
    (2 * 2) r_point epsilon_0

/-- Background-grid spacing of the parallel-plates module
(src/geometries/parallel_plates.py line 98). -/
def grid_step (N : ℚ) : ℚ := max (0.8 * 20 / N) 0.2

end ParallelPlates

namespace TwoSpheres

/-- Field of two uniformly charged spheres at one observation point
(src/geometries/two_spheres.py, compute_field_two_spheres): each sphere
contributes its point-charge field when the observation point is strictly
farther than `radius` from its center, and nothing otherwise. -/
noncomputable def compute_field_two_spheres (r1 r2 : Vec3) (q1 q2 radius : ℝ)
    (obs : Vec3) (epsilon_0 : ℝ) : Vec3 :=
  (if radius < (obs - r1).norm then
    (q1 / (4 * Real.pi * epsilon_0 * (obs - r1).norm ^ 3)) • (obs - r1)
  else 0) +
  (if radius < (obs - r2).norm then
    (q2 / (4 * Real.pi * epsilon_0 * (obs - r2).norm ^ 3)) • (obs - r2)
  else 0)

/-- Potential of two uniformly charged spheres at one observation point
(src/geometries/two_spheres.py, compute_potential_two_spheres): each sphere
contributes its point-charge potential outside its radius and the constant
surface value q_i / (4*pi*epsilon_0*radius) at or inside it. -/
noncomputable def compute_potential_two_spheres (r1 r2 : Vec3) (q1 q2 radius : ℝ)
    (obs : Vec3) (epsilon_0 : ℝ) : ℝ :=
  (if radius < (obs - r1).norm then q1 / (4 * Real.pi * epsilon_0 * (obs - r1).norm)
   else q1 / (4 * Real.pi * epsilon_0 * radius)) +
  (if radius < (obs - r2).norm then q2 / (4 * Real.pi * epsilon_0 * (obs - r2).norm)
   else q2 / (4 * Real.pi * epsilon_0 * radius))

/-- Point-field for the particle animation (src/geometries/two_spheres.py,
E_point): spheres of radius 0.5 at (-distance/2,0,0) and (+distance/2,0,0)
with charges q1 = 4*pi*0.5^2*sigma and q2 = q1 with the sign optionally inverted; the N parameter is
accepted but unused, as in the source. -/
noncomputable def E_point (r_point : Vec3) (sigma distance : ℝ)
    (invert_signo : Bool) (N : ℕ) (epsilon_0 : ℝ) : Vec3 :=
  compute_field_two_spheres
    (Vec3.mk (-distance / 2) 0 0) (Vec3.mk (distance / 2) 0 0)
    (4 * Real.pi * (0.5 : ℝ) ^ 2 * sigma)
    (if invert_signo then -(4 * Real.pi * (0.5 : ℝ) ^ 2 * sigma)
     else 4 * Real.pi * (0.5 : ℝ) ^ 2 * sigma)
    0.5 r_point epsilon_0

/-- Background-grid spacing of the two-spheres module
(src/geometries/two_spheres.py line 61): the floor is 0.25, not 0.2. -/
def grid_step (N : ℚ) : ℚ := max (0.8 * 20 / N) 0.25

end TwoSpheres

/-- The six geometry modules that exist under src/geometries/: the value of
`estado["geometry"]` when the dynamic import in the tick callback succeeds. -/
inductive Geometry where
  | charged_sphere
  | charged_ring
  | charged_cylinder
  | charged_plate
  | parallel_plates
  | two_spheres
deriving DecidableEq

/-- A Python scalar as it can arrive from a dash numeric input or a stored
state dict: the float case, None, and the string cases distinguished by how
`bool(s)` and `float(s)` behave (nonempty numeric, nonempty non-numeric,
empty). Arithmetic (`q / m`, `radius**2 * sigma`) succeeds only on `num`. -/
inductive PyVal where
  | pyNone
  | num (v : ℝ)
  | strNum (v : ℝ)
  | strBad
  | strEmpty

/-- The value a PyVal contributes to float arithmetic, `Option.none` when the
Python operation would raise a TypeError. -/
def PyVal.numeric : PyVal → Option ℝ
  | .num v => some v
  | _ => Option.none

/-- Lenient parameter parsing in check_collision
(src/callbacks/particle_simulation.py lines 15-22):
`float(params.get(key) or 1.0)` inside try/except. A falsy value (missing
key, None, 0, 0.0, empty string) is replaced by 1.0 before conversion, and a
failing float conversion (nonempty non-numeric string) is caught and also
yields 1.0. -/
noncomputable def parseParam : PyVal → ℝ
  | .pyNone => 1
  | .num v => if v = 0 then 1 else v
  | .strNum v => v
  | .strBad => 1
  | .strEmpty => 1

/-- The collision predicate (src/callbacks/particle_simulation.py,
check_collision): the per-geometry geometric test after lenient parsing of
the radius and distance parameters. The source returns False for unknown
geometry strings; here the geometry argument ranges over the closed set of
known modules. -/
noncomputable def check_collision (pos : Vec3) (geometry : Geometry)
    (radiusP distanceP : PyVal) : Prop :=
  match geometry with
  | .charged_sphere => pos.norm ≤ parseParam radiusP
  | .charged_ring =>
      |pos.z| < 0.05 ∧ |Real.sqrt (pos.x ^ 2 + pos.y ^ 2) - parseParam radiusP| < 0.05
  | .charged_cylinder =>
      Real.sqrt (pos.x ^ 2 + pos.y ^ 2) ≤ parseParam radiusP ∧ |pos.z| ≤ 2.0 / 2
  | .charged_plate => |pos.z| < 0.05 ∧ |pos.x| ≤ 0.5 ∧ |pos.y| ≤ 0.5
  | .parallel_plates =>
      |pos.x| ≤ 1 ∧ |pos.y| ≤ 1 ∧
        (pos.z ≤ -(parseParam distanceP) / 2 ∨ parseParam distanceP / 2 ≤ pos.z)
  | .two_spheres =>
      (pos - Vec3.mk (parseParam distanceP / 2) 0 0).norm ≤ parseParam radiusP ∨
      (pos - Vec3.mk (-(parseParam distanceP) / 2) 0 0).norm ≤ parseParam radiusP

/-- The particle-state dict stored in dcc.Store("particle-state") as the tick
callback sees it: the two flags, kinematic state, the raw mass/charge and
geometry-parameter entries (set verbatim from the inputs at start), the
geometry module name (None when the dynamic import would fail), and the
"invert" checkbox membership test result. -/
structure Estado where
  simulated : Bool
  activo : Bool
  pos : Vec3
  vel : Vec3
  m : PyVal
  q : PyVal
  geometry : Option Geometry
  sigma : PyVal
  radius : PyVal
  distance : PyVal
  invert : Bool

/-- The field evaluation of one tick
(src/callbacks/particle_simulation.py lines 119-132): the kwargs dict is
built from the parameters appearing in the chosen module's E_point
signature (sigma always; radius for sphere/ring/cylinder; distance and
invert_signo for parallel_plates/two_spheres), each taken raw from the
state; parameters not forwarded keep their source defaults, in particular
epsilon_0 (8.854e-12 for sphere/ring/plate, config.EPSILON_0 for
cylinder/parallel_plates/two_spheres) and the resolution N. A non-numeric
forwarded parameter makes the Python call raise, modelled by Option.none. -/
noncomputable def fieldAt (g : Geometry) (e : Estado) : Option Vec3 :=
  match g with
  | .charged_sphere =>
      match e.sigma.numeric, e.radius.numeric with
      | some σ, some r => some (ChargedSphere.E_point e.pos σ r 8.854e-12)
      | _, _ => Option.none
  | .charged_ring =>
      match e.sigma.numeric, e.radius.numeric with
      | some σ, some r => some (ChargedRing.E_point e.pos σ r 8.854e-12 20)
      | _, _ => Option.none
  | .charged_cylinder =>
      match e.sigma.numeric, e.radius.numeric with
      | some σ, some r => some (ChargedCylinder.E_point e.pos σ r 2 20 EPSILON_0)
      | _, _ => Option.none
  | .charged_plate =>
      match e.sigma.numeric with
      | some σ => some (ChargedPlate.E_point e.pos σ 1 1 8.854e-12 20)
      | _ => Option.none
  | .parallel_plates =>
      match e.sigma.numeric, e.distance.numeric with
      | some σ, some d => some (ParallelPlates.E_point e.pos σ d e.invert EPSILON_0)
      | _, _ => Option.none
  | .two_spheres =>
      match e.sigma.numeric, e.distance.numeric with
      | some σ, some d => some (TwoSpheres.E_point e.pos σ d e.invert 20 EPSILON_0)
      | _, _ => Option.none

/-- The try-block of one animation tick
(src/callbacks/particle_simulation.py lines 118-145): import the geometry
module, evaluate the field at the current position, compute
acc = (q/m) * E (raising on non-numeric m or q and on m = 0), apply the
semi-implicit Euler update with dt = 0.05, then run the collision test on
the updated position, clearing the active flag on a hit. `Option.none`
models an exception reaching the except-branch. -/
noncomputable def stepTry (e : Estado) : Option Estado :=
  match e.geometry with
  | Option.none => Option.none
  | some g =>
    match fieldAt g e with
    | Option.none => Option.none
    | some E =>
      match e.m, e.q with
      | PyVal.num m, PyVal.num q =>
        if m = 0 then Option.none
        else
          let acc := (q / m) • E
          let vel := e.vel + (0.05 : ℝ) • acc
          let pos := e.pos + (0.05 : ℝ) • vel
          let activo := if check_collision pos g e.radius e.distance then false
                        else e.activo
          some { e with pos := pos, vel := vel, activo := activo }
      | _, _ => Option.none

/-- The animation-interval branch of the tick callback
(src/callbacks/particle_simulation.py lines 108-151): an inactive state is
left untouched (dash.no_update), an exception inside the try-block is
logged and also leaves the stored state untouched, and otherwise the
stepped state is stored. -/
noncomputable def tick (e : Estado) : Estado :=
  match e.activo with
  | true =>
    match stepTry e with
    | some e2 => e2
    | Option.none => e
  | false => e

/-- The raw input values available to the start-button branch
(src/callbacks/particle_simulation.py lines 88-106): mass, charge, initial
position and velocity, the dropdown geometry and the geometry parameters. -/
structure StartInputs where
  m : PyVal
  q : PyVal
  x0 : ℝ
  y0 : ℝ
  z0 : ℝ
  vx0 : ℝ
  vy0 : ℝ
  vz0 : ℝ
  geometry : Option Geometry
  sigma : PyVal
  radius : PyVal
  distance : PyVal
  invert : Bool

/-- The start-button branch (src/callbacks/particle_simulation.py lines
88-106): if there is no stored state or its simulated flag is not set, the
request is ignored (dash.no_update, modelled by Option.none, so the stored
state is unchanged); otherwise a fresh active state is built verbatim from
the inputs. -/
def handle_start (estado : Option Estado) (inp : StartInputs) : Option Estado :=
  match estado with
  | Option.none => Option.none
  | some e =>
    if e.simulated then
      some { simulated := true
             activo := true
             pos := Vec3.mk inp.x0 inp.y0 inp.z0
             vel := Vec3.mk inp.vx0 inp.vy0 inp.vz0
             m := inp.m
             q := inp.q
             geometry := inp.geometry
             sigma := inp.sigma
             radius := inp.radius
             distance := inp.distance
             invert := inp.invert }
    else Option.none

/-- The trajectory recorded over n ticks: the sequence of (position,
velocity) pairs produced by iterating the tick callback. -/
noncomputable def trajectory (e : Estado) : ℕ → List (Vec3 × Vec3)
  | 0 => []
  | Nat.succ n => ((tick e).pos, (tick e).vel) :: trajectory (tick e) n

/-- Helper: the tick of an active, well-formed state is exactly the
semi-implicit Euler update followed by the collision test. Shared by the
claim theorems about the integrator. -/
theorem tick_eq_of_wellformed (e : Estado) (g : Geometry) (m q : ℝ) (E : Vec3)
    (hact : e.activo = true) (hg : e.geometry = some g)
    (hm : e.m = PyVal.num m) (hq : e.q = PyVal.num q) (hm0 : m ≠ 0)
    (hE : fieldAt g e = some E) :
    tick e = { e with
      vel := e.vel + (0.05 : ℝ) • ((q / m) • E)
      pos := e.pos + (0.05 : ℝ) • (e.vel + (0.05 : ℝ) • ((q / m) • E))
      activo := if check_collision
          (e.pos + (0.05 : ℝ) • (e.vel + (0.05 : ℝ) • ((q / m) • E)))
          g e.radius e.distance then false else true } := by
  obtain ⟨sim, act, pos0, vel0, m0, q0, geo, sig, rad, dist, inv⟩ := e
  dsimp only at hact hg hm hq hE ⊢
  subst hact; subst hg; subst hm; subst hq
  unfold tick stepTry
  dsimp only
  rw [hE]
  dsimp only
  rw [if_neg hm0]

/-- C1: the sphere field evaluator returns exactly zero at observation points
with norm at most R, and the point-charge-equivalent field
(4*pi*R^2*sigma) * p / (4*pi*epsilon_0*norm(p)^3) outside; for R = 1,
sigma = 1e-6, epsilon_0 = 8.854e-12 and any point at distance 2 from the
origin, the field magnitude equals (4*pi*R^2*sigma)/(4*pi*epsilon_0*2^2)
within 1e-6 relative tolerance (in the exact real model the equality is
exact, hence within the tolerance). -/
theorem sphere_field_closed_form (p : Vec3) (R σ ε : ℝ) (hR : 0 < R) (hε : 0 < ε) :
    (p.norm ≤ R → ChargedSphere.E_point p σ R ε = 0) ∧
    (R < p.norm → ChargedSphere.E_point p σ R ε
      = ((4 * Real.pi * R ^ 2 * σ) / (4 * Real.pi * ε * p.norm ^ 3)) • p) ∧
    (R = 1 → σ = 1e-6 → ε = 8.854e-12 → p.norm = 2 →
      |(ChargedSphere.E_point p σ R ε).norm
          - (4 * Real.pi * R ^ 2 * σ) / (4 * Real.pi * ε * 2 ^ 2)|
        ≤ 1e-6 * ((4 * Real.pi * R ^ 2 * σ) / (4 * Real.pi * ε * 2 ^ 2))) := by
  have hsub : p - Vec3.mk 0 0 0 = p := Vec3.sub_zero_vec p
  refine ⟨?_, ?_, ?_⟩
  · intro h
    unfold ChargedSphere.E_point ChargedSphere.compute_field_sphere
    rw [hsub, if_pos h]
    simp
  · intro h
    unfold ChargedSphere.E_point ChargedSphere.compute_field_sphere
    rw [hsub, if_neg (not_le.mpr h)]
  · intro hR1 hσ hε1 hnorm
    subst hR1 hσ hε1
    have hlt : (1 : ℝ) < p.norm := by rw [hnorm]; norm_num
    unfold ChargedSphere.E_point ChargedSphere.compute_field_sphere
    rw [hsub, if_neg (not_le.mpr hlt), Vec3.norm_smul, hnorm]
    have hπ : (0 : ℝ) < Real.pi := Real.pi_pos
    have hc : (0 : ℝ) < (4 * Real.pi * 1 ^ 2 * 1e-6)
        / (4 * Real.pi * 8.854e-12 * 2 ^ 3) := by positivity
    rw [abs_of_pos hc]
    have hx : (4 * Real.pi * 1 ^ 2 * 1e-6) / (4 * Real.pi * 8.854e-12 * 2 ^ 3) * 2
        = (4 * Real.pi * 1 ^ 2 * 1e-6) / (4 * Real.pi * 8.854e-12 * 2 ^ 2) := by
      field_simp
      ring
    rw [hx, sub_self, abs_zero]
    positivity

/-- Witness for C1 at the concrete point (0,0,2) with R = 1, sigma = 1e-6,
epsilon_0 = 8.854e-12. -/
theorem sphere_field_closed_form_witness :
    |(ChargedSphere.E_point (Vec3.mk 0 0 2) 1e-6 1 8.854e-12).norm
        - (4 * Real.pi * 1 ^ 2 * 1e-6) / (4 * Real.pi * 8.854e-12 * 2 ^ 2)|
      ≤ 1e-6 * ((4 * Real.pi * 1 ^ 2 * 1e-6) / (4 * Real.pi * 8.854e-12 * 2 ^ 2)) := by
  have hnorm : (Vec3.mk (0:ℝ) 0 2).norm = 2 := by
    rw [Vec3.norm_zAxis]; norm_num
  exact (sphere_field_closed_form (Vec3.mk 0 0 2) 1 1e-6 8.854e-12
    one_pos (by norm_num)).2.2 rfl rfl rfl hnorm

/-- C2: each animation tick of an active state with numeric mass m (nonzero),
numeric charge q and a successfully imported geometry performs exactly one
semi-implicit Euler step with dt = 0.05: the field E is the chosen module's
E_point at the current position with the state's parameters (the forwarded
kwargs), then a = (q/m)*E, v2 = v + a*dt, p2 = p + v2*dt; finally the
collision predicate is applied to p2 and on a hit the active flag is
cleared, otherwise the state stays active. -/
theorem tick_semi_implicit_euler (e : Estado) (g : Geometry) (m q : ℝ) (E : Vec3)
    (hact : e.activo = true) (hg : e.geometry = some g)
    (hm : e.m = PyVal.num m) (hq : e.q = PyVal.num q) (hm0 : m ≠ 0)
    (hE : fieldAt g e = some E) :
    tick e = { e with
      vel := e.vel + (0.05 : ℝ) • ((q / m) • E)
      pos := e.pos + (0.05 : ℝ) • (e.vel + (0.05 : ℝ) • ((q / m) • E))
      activo := if check_collision
          (e.pos + (0.05 : ℝ) • (e.vel + (0.05 : ℝ) • ((q / m) • E)))
          g e.radius e.distance then false else true } :=
  tick_eq_of_wellformed e g m q E hact hg hm hq hm0 hE

/-- Witness for C2: a sphere-geometry state at (2,0,0) with velocity
(-20,0,0), mass 1 and charge 0 steps to (1,0,0) and stops there (the
stepped position lies on the sphere of radius 1). -/
theorem tick_semi_implicit_euler_witness :
    tick ⟨true, true, Vec3.mk 2 0 0, Vec3.mk (-20) 0 0, PyVal.num 1, PyVal.num 0,
        some Geometry.charged_sphere, PyVal.num 1e-6, PyVal.num 1, PyVal.num 1, false⟩
      = ⟨true, false, Vec3.mk 1 0 0, Vec3.mk (-20) 0 0, PyVal.num 1, PyVal.num 0,
        some Geometry.charged_sphere, PyVal.num 1e-6, PyVal.num 1, PyVal.num 1, false⟩ := by
  have h := tick_semi_implicit_euler
    ⟨true, true, Vec3.mk 2 0 0, Vec3.mk (-20) 0 0, PyVal.num 1, PyVal.num 0,
      some Geometry.charged_sphere, PyVal.num 1e-6, PyVal.num 1, PyVal.num 1, false⟩
    Geometry.charged_sphere 1 0
    (ChargedSphere.E_point (Vec3.mk 2 0 0) 1e-6 1 8.854e-12)
    rfl rfl rfl rfl one_ne_zero rfl
  rw [h]
  have hv : Vec3.mk (-20 : ℝ) 0 0 + (0.05 : ℝ) • (((0 : ℝ) / 1)
      • ChargedSphere.E_point (Vec3.mk 2 0 0) 1e-6 1 8.854e-12) = Vec3.mk (-20) 0 0 := by
    rw [zero_div, Vec3.zero_smul_vec, Vec3.smul_zero_vec, Vec3.add_zero_vec]
  have hp : Vec3.mk (2 : ℝ) 0 0 + (0.05 : ℝ) • Vec3.mk (-20 : ℝ) 0 0 = Vec3.mk 1 0 0 := by
    rw [Vec3.smul_def, Vec3.add_def]; norm_num
  have hcol : check_collision (Vec3.mk 1 0 0) Geometry.charged_sphere
      (PyVal.num 1) (PyVal.num 1) := by
    unfold check_collision parseParam
    dsimp only
    rw [Vec3.norm_xAxis, if_neg (by norm_num : ¬ ((1:ℝ) = 0))]
    norm_num
  dsimp only
  rw [hv, hp, if_pos hcol]

/-- C9: when the collision predicate fires on the post-step position, the
tick still commits the updated position and velocity: the stored position is
the colliding point itself and only the active flag is cleared; the state is
not rolled back to the last non-colliding position. -/
theorem collision_commits_position (e : Estado) (g : Geometry) (m q : ℝ) (E : Vec3)
    (hact : e.activo = true) (hg : e.geometry = some g)
    (hm : e.m = PyVal.num m) (hq : e.q = PyVal.num q) (hm0 : m ≠ 0)
    (hE : fieldAt g e = some E)
    (hcol : check_collision
        (e.pos + (0.05 : ℝ) • (e.vel + (0.05 : ℝ) • ((q / m) • E)))
        g e.radius e.distance) :
    (tick e).pos = e.pos + (0.05 : ℝ) • (e.vel + (0.05 : ℝ) • ((q / m) • E)) ∧
    (tick e).vel = e.vel + (0.05 : ℝ) • ((q / m) • E) ∧
    (tick e).activo = false := by
  rw [tick_eq_of_wellformed e g m q E hact hg hm hq hm0 hE]
  exact ⟨rfl, rfl, by dsimp only; rw [if_pos hcol]⟩

/-- Witness for C9: the colliding step of the C2 scenario keeps the stepped
position (1,0,0), which lies on the source sphere, and clears the flag. -/
theorem collision_commits_position_witness :
    (tick ⟨true, true, Vec3.mk 2 0 0, Vec3.mk (-20) 0 0, PyVal.num 1, PyVal.num 0,
        some Geometry.charged_sphere, PyVal.num 1e-6, PyVal.num 1, PyVal.num 1, false⟩).pos
      = Vec3.mk 1 0 0 ∧
    (tick ⟨true, true, Vec3.mk 2 0 0, Vec3.mk (-20) 0 0, PyVal.num 1, PyVal.num 0,
        some Geometry.charged_sphere, PyVal.num 1e-6, PyVal.num 1, PyVal.num 1, false⟩).activo
      = false := by
  have hv : Vec3.mk (-20 : ℝ) 0 0 + (0.05 : ℝ) • (((0 : ℝ) / 1)
      • ChargedSphere.E_point (Vec3.mk 2 0 0) 1e-6 1 8.854e-12) = Vec3.mk (-20) 0 0 := by
    rw [zero_div, Vec3.zero_smul_vec, Vec3.smul_zero_vec, Vec3.add_zero_vec]
  have hp : Vec3.mk (2 : ℝ) 0 0 + (0.05 : ℝ) • Vec3.mk (-20 : ℝ) 0 0 = Vec3.mk 1 0 0 := by
    rw [Vec3.smul_def, Vec3.add_def]; norm_num
  have hcol : check_collision (Vec3.mk 1 0 0) Geometry.charged_sphere
      (PyVal.num 1) (PyVal.num 1) := by
    unfold check_collision parseParam
    dsimp only
    rw [Vec3.norm_xAxis, if_neg (by norm_num : ¬ ((1:ℝ) = 0))]
    norm_num
  have h := collision_commits_position
    ⟨true, true, Vec3.mk 2 0 0, Vec3.mk (-20) 0 0, PyVal.num 1, PyVal.num 0,
      some Geometry.charged_sphere, PyVal.num 1e-6, PyVal.num 1, PyVal.num 1, false⟩
    Geometry.charged_sphere 1 0
    (ChargedSphere.E_point (Vec3.mk 2 0 0) 1e-6 1 8.854e-12)
    rfl rfl rfl rfl one_ne_zero rfl (by dsimp only; rw [hv, hp]; exact hcol)
  refine ⟨?_, h.2.2⟩
  rw [h.1]
  dsimp only
  rw [hv, hp]

/-- C6: if the try-block of a tick raises (non-numeric mass or charge,
missing geometry module, or a parameter that makes the field call raise),
the tick returns the state unchanged; and whenever the try-block succeeds
the tick commits exactly its result, so a later well-formed tick resumes
from the last valid state. The exception is caught and logged (the print in
the except-branch), never propagated. -/
theorem tick_exception_preserves_state (e : Estado) (hact : e.activo = true) :
    (stepTry e = Option.none → tick e = e) ∧
    (∀ e2 : Estado, stepTry e = some e2 → tick e = e2) := by
  constructor
  · intro h
    unfold tick
    rw [hact, h]
  · intro e2 h
    unfold tick
    rw [hact, h]

/-- Witness for C6: a state whose mass entry is None (the dash input was
cleared) makes the tick a no-op. -/
theorem tick_exception_preserves_state_witness :
    tick ⟨true, true, Vec3.mk 0 0 0, Vec3.mk 0 0 0, PyVal.pyNone, PyVal.num 1,
        some Geometry.charged_sphere, PyVal.num 1e-6, PyVal.num 1, PyVal.num 1, false⟩
      = ⟨true, true, Vec3.mk 0 0 0, Vec3.mk 0 0 0, PyVal.pyNone, PyVal.num 1,
        some Geometry.charged_sphere, PyVal.num 1e-6, PyVal.num 1, PyVal.num 1, false⟩ :=
  (tick_exception_preserves_state
    ⟨true, true, Vec3.mk 0 0 0, Vec3.mk 0 0 0, PyVal.pyNone, PyVal.num 1,
      some Geometry.charged_sphere, PyVal.num 1e-6, PyVal.num 1, PyVal.num 1, false⟩
    rfl).1 rfl

/-- C7: a start request with no stored state or with the simulated flag
unset is ignored (dash.no_update, so the stored particle state is
unchanged); with the flag set it builds a fresh active state verbatim from
the supplied mass, charge, position, velocity and geometry parameters. -/
theorem start_requires_simulated (inp : StartInputs) :
    handle_start Option.none inp = Option.none ∧
    (∀ e : Estado, e.simulated = false → handle_start (some e) inp = Option.none) ∧
    (∀ e : Estado, e.simulated = true → handle_start (some e) inp
      = some ⟨true, true, Vec3.mk inp.x0 inp.y0 inp.z0, Vec3.mk inp.vx0 inp.vy0 inp.vz0,
          inp.m, inp.q, inp.geometry, inp.sigma, inp.radius, inp.distance, inp.invert⟩) := by
  refine ⟨rfl, ?_, ?_⟩
  · intro e h
    unfold handle_start
    dsimp only
    rw [h, if_neg (by simp : ¬ (false = true))]
  · intro e h
    unfold handle_start
    dsimp only
    rw [h, if_pos rfl]

/-- Witness for C7: after a field has been simulated (flag set), start
produces the initialized active state. -/
theorem start_requires_simulated_witness :
    handle_start (some ⟨true, false, Vec3.mk 0 0 0, Vec3.mk 0 0 0, PyVal.pyNone,
        PyVal.pyNone, Option.none, PyVal.pyNone, PyVal.pyNone, PyVal.pyNone, false⟩)
      ⟨PyVal.num 1, PyVal.num 2, 3, 0, 0, 0, 4, 0, some Geometry.charged_ring,
        PyVal.num 1e-6, PyVal.num 1, PyVal.num 1, true⟩
      = some ⟨true, true, Vec3.mk 3 0 0, Vec3.mk 0 4 0, PyVal.num 1, PyVal.num 2,
          some Geometry.charged_ring, PyVal.num 1e-6, PyVal.num 1, PyVal.num 1, true⟩ :=
  (start_requires_simulated
    ⟨PyVal.num 1, PyVal.num 2, 3, 0, 0, 0, 4, 0, some Geometry.charged_ring,
      PyVal.num 1e-6, PyVal.num 1, PyVal.num 1, true⟩).2.2
    ⟨true, false, Vec3.mk 0 0 0, Vec3.mk 0 0 0, PyVal.pyNone, PyVal.pyNone,
      Option.none, PyVal.pyNone, PyVal.pyNone, PyVal.pyNone, false⟩ rfl

/-- C8: the tick function is a pure function of the stored state — it reads
no clock, no randomness and no hidden globals — so two runs from equal
initial states produce identical trajectories for any number of ticks. -/
theorem trajectory_deterministic (e1 e2 : Estado) (n : ℕ) (h : e1 = e2) :
    trajectory e1 n = trajectory e2 n := by rw [h]

/-- Witness for C8: two three-tick runs from the same concrete state agree. -/
theorem trajectory_deterministic_witness :
    trajectory ⟨true, true, Vec3.mk 2 0 0, Vec3.mk (-20) 0 0, PyVal.num 1, PyVal.num 0,
        some Geometry.charged_sphere, PyVal.num 1e-6, PyVal.num 1, PyVal.num 1, false⟩ 3
    = trajectory ⟨true, true, Vec3.mk 2 0 0, Vec3.mk (-20) 0 0, PyVal.num 1, PyVal.num 0,
        some Geometry.charged_sphere, PyVal.num 1e-6, PyVal.num 1, PyVal.num 1, false⟩ 3 :=
  trajectory_deterministic
    ⟨true, true, Vec3.mk 2 0 0, Vec3.mk (-20) 0 0, PyVal.num 1, PyVal.num 0,
      some Geometry.charged_sphere, PyVal.num 1e-6, PyVal.num 1, PyVal.num 1, false⟩
    ⟨true, true, Vec3.mk 2 0 0, Vec3.mk (-20) 0 0, PyVal.num 1, PyVal.num 0,
      some Geometry.charged_sphere, PyVal.num 1e-6, PyVal.num 1, PyVal.num 1, false⟩
    3 rfl

/-- C4: the collision predicate is exactly the per-geometry test of the
source, applied to the leniently parsed radius and distance (here supplied
as nonzero numerics so that parsing is the identity): Sphere norm(p) <= R;
Ring |z| < 0.05 and |sqrt(x^2+y^2) - R| < 0.05; Cylinder
sqrt(x^2+y^2) <= R and |z| <= 1.0; Plate |z| < 0.05, |x| <= 0.5,
|y| <= 0.5; ParallelPlates |x| <= 1, |y| <= 1 and z outside (-d/2, d/2);
TwoSpheres within R of either center (d/2,0,0) or (-d/2,0,0). For the
Cylinder with R = 1, (0,0,0) collides and (0,0,1.5) does not. -/
theorem check_collision_spec (pos : Vec3) (R d : ℝ) (hR : R ≠ 0) (hd : d ≠ 0) :
    (check_collision pos Geometry.charged_sphere (PyVal.num R) (PyVal.num d) ↔
      pos.norm ≤ R) ∧
    (check_collision pos Geometry.charged_ring (PyVal.num R) (PyVal.num d) ↔
      |pos.z| < 0.05 ∧ |Real.sqrt (pos.x ^ 2 + pos.y ^ 2) - R| < 0.05) ∧
    (check_collision pos Geometry.charged_cylinder (PyVal.num R) (PyVal.num d) ↔
      Real.sqrt (pos.x ^ 2 + pos.y ^ 2) ≤ R ∧ |pos.z| ≤ 1.0) ∧
    (check_collision pos Geometry.charged_plate (PyVal.num R) (PyVal.num d) ↔
      |pos.z| < 0.05 ∧ |pos.x| ≤ 0.5 ∧ |pos.y| ≤ 0.5) ∧
    (check_collision pos Geometry.parallel_plates (PyVal.num R) (PyVal.num d) ↔
      |pos.x| ≤ 1 ∧ |pos.y| ≤ 1 ∧ (pos.z ≤ -d / 2 ∨ d / 2 ≤ pos.z)) ∧
    (check_collision pos Geometry.two_spheres (PyVal.num R) (PyVal.num d) ↔
      (pos - Vec3.mk (d / 2) 0 0).norm ≤ R ∨ (pos - Vec3.mk (-d / 2) 0 0).norm ≤ R) ∧
    check_collision (Vec3.mk 0 0 0) Geometry.charged_cylinder (PyVal.num 1) (PyVal.num d) ∧
    ¬ check_collision (Vec3.mk 0 0 1.5) Geometry.charged_cylinder (PyVal.num 1) (PyVal.num d) := by
  have hpR : parseParam (PyVal.num R) = R := by
    unfold parseParam; dsimp only; rw [if_neg hR]
  have hpd : parseParam (PyVal.num d) = d := by
    unfold parseParam; dsimp only; rw [if_neg hd]
  have hp1 : parseParam (PyVal.num 1) = 1 := by
    unfold parseParam; dsimp only; rw [if_neg (by norm_num : ¬ ((1:ℝ) = 0))]
  refine ⟨?_, ?_, ?_, ?_, ?_, ?_, ?_, ?_⟩
  · unfold check_collision; dsimp only; rw [hpR]
  · unfold check_collision; dsimp only; rw [hpR]
  · unfold check_collision; dsimp only; rw [hpR]; norm_num
  · exact Iff.rfl
  · unfold check_collision; dsimp only; rw [hpd]
  · unfold check_collision; dsimp only; rw [hpd, hpR]
  · unfold check_collision; dsimp only
    rw [hp1]
    refine ⟨by norm_num [Real.sqrt_zero], by norm_num⟩
  · unfold check_collision; dsimp only
    intro hcon
    have h2 := hcon.2
    rw [abs_of_pos (by norm_num : (0:ℝ) < 1.5)] at h2
    norm_num at h2

/-- Witness for C4: at the origin with R = d = 1, the cylinder test fires. -/
theorem check_collision_spec_witness :
    check_collision (Vec3.mk 0 0 0) Geometry.charged_cylinder (PyVal.num 1) (PyVal.num 1) :=
  (check_collision_spec (Vec3.mk 0 0 0) 1 1
    (by norm_num) (by norm_num)).2.2.2.2.2.2.1

/-- C10: in check_collision, a radius or distance entry that is falsy
(missing/None, 0, empty string) or not convertible to float (non-numeric
string) is replaced by the default 1.0 before the geometric test; any other
numeric value is used as supplied. In particular an explicit radius of 0 is
treated as radius 1.0: with radius 0 the point (0.9,0,0) still collides
with the sphere. -/
theorem collision_param_defaulting :
    parseParam PyVal.pyNone = 1 ∧ parseParam (PyVal.num 0) = 1 ∧
    parseParam PyVal.strEmpty = 1 ∧ parseParam PyVal.strBad = 1 ∧
    (∀ v : ℝ, v ≠ 0 → parseParam (PyVal.num v) = v) ∧
    check_collision (Vec3.mk 0.9 0 0) Geometry.charged_sphere (PyVal.num 0) PyVal.pyNone := by
  refine ⟨rfl, ?_, rfl, rfl, ?_, ?_⟩
  · unfold parseParam; dsimp only; rw [if_pos rfl]
  · intro v hv; unfold parseParam; dsimp only; rw [if_neg hv]
  · unfold check_collision parseParam; dsimp only
    rw [if_pos rfl, Vec3.norm_xAxis, abs_of_pos (by norm_num : (0:ℝ) < 0.9)]
    norm_num

/-- Witness for C10: a nonzero numeric radius is used as supplied. -/
theorem collision_param_defaulting_witness :
    (2:ℝ) ≠ 0 ∧ parseParam (PyVal.num 2) = 2 :=
  ⟨by norm_num, collision_param_defaulting.2.2.2.2.1 2 (by norm_num)⟩

/-- C5 counterexample: the claim says every geometry uses grid spacing
max(0.8*20/N, 0.2), but the two-spheres module floors at 0.25: at N = 80
it yields 0.25 where the claimed formula yields 0.2. -/
theorem grid_step_two_spheres_counterexample :
    TwoSpheres.grid_step 80 ≠ max (0.8 * 20 / 80) 0.2 := by
  unfold TwoSpheres.grid_step
  rw [show (0.8 * 20 / 80 : ℚ) = 0.2 from by norm_num,
      max_eq_right (by norm_num : (0.2:ℚ) ≤ 0.25), max_self]
  norm_num

/-- C5 amended: for every resolution N >= 1, the sphere, ring, cylinder,
plate and parallel-plates simulate functions use the grid spacing
max(0.8*20/N, 0.2), while the two-spheres simulate function uses
max(0.8*20/N, 0.25); consequently the two-spheres spacing never drops below
1/4 while the others can reach 1/5. -/
theorem grid_step_spec_amended (N : ℚ) (hN : 1 ≤ N) :
    ChargedSphere.grid_step N = max (0.8 * 20 / N) 0.2 ∧
    ChargedRing.grid_step N = max (0.8 * 20 / N) 0.2 ∧
    ChargedCylinder.grid_step N = max (0.8 * 20 / N) 0.2 ∧
    ChargedPlate.grid_step N = max (0.8 * 20 / N) 0.2 ∧
    ParallelPlates.grid_step N = max (0.8 * 20 / N) 0.2 ∧
    TwoSpheres.grid_step N = max (0.8 * 20 / N) 0.25 ∧
    (1/4 : ℚ) ≤ TwoSpheres.grid_step N ∧ (1/5 : ℚ) ≤ ChargedSphere.grid_step N :=
  ⟨rfl, rfl, rfl, rfl, rfl, rfl,
   le_trans (by norm_num) (le_max_right (0.8 * 20 / N) 0.25),
   le_trans (by norm_num) (le_max_right (0.8 * 20 / N) 0.2)⟩

/-- Witness for C5 at N = 20: the two-spheres spacing is 0.8. -/
theorem grid_step_spec_amended_witness : TwoSpheres.grid_step 20 = 0.8 := by
  have h := (grid_step_spec_amended 20 (by norm_num)).2.2.2.2.2.1
  rw [h, show (0.8 * 20 / 20 : ℚ) = 0.8 from by norm_num,
      max_eq_left (by norm_num : (0.25:ℚ) ≤ 0.8)]

/-- C3 counterexample: the center of the first sphere of the TwoSpheres
configuration (sigma = 1e-6, distance = 1, inverted second sphere, the
module's epsilon_0) lies inside that sphere (distance 0 <= 0.5 to its
center), yet the evaluated field there is not the zero vector: only the
sphere's own contribution is dropped, and the second sphere's point-charge
contribution is still added. -/
theorem two_spheres_inside_field_counterexample :
    (Vec3.mk (-(1:ℝ)/2) 0 0 - Vec3.mk (-(1:ℝ)/2) 0 0).norm ≤ 0.5 ∧
    TwoSpheres.E_point (Vec3.mk (-(1:ℝ)/2) 0 0) 1e-6 1 true 20 EPSILON_0 ≠ 0 := by
  have hsub1 : Vec3.mk (-(1:ℝ)/2) 0 0 - Vec3.mk (-(1:ℝ)/2) 0 0 = Vec3.mk 0 0 0 := by
    simp only [Vec3.sub_def, Vec3.mk.injEq]; norm_num
  have hsub2 : Vec3.mk (-(1:ℝ)/2) 0 0 - Vec3.mk ((1:ℝ)/2) 0 0 = Vec3.mk (-1) 0 0 := by
    simp only [Vec3.sub_def, Vec3.mk.injEq]; norm_num
  have hn : (Vec3.mk (-1:ℝ) 0 0).norm = 1 := by
    rw [Vec3.norm_xAxis]; simp
  refine ⟨?_, ?_⟩
  · rw [hsub1, Vec3.norm_zero]; norm_num
  · unfold TwoSpheres.E_point TwoSpheres.compute_field_two_spheres
    rw [if_pos rfl, hsub1, hsub2, Vec3.norm_zero, hn,
        if_neg (by norm_num : ¬ ((0.5:ℝ) < 0)),
        if_pos (by norm_num : (0.5:ℝ) < 1), Vec3.zero_add_vec]
    intro hEq
    have hx := congrArg Vec3.x hEq
    simp only [Vec3.smul_x, Vec3.mk_x, Vec3.zero_x] at hx
    rcases mul_eq_zero.mp hx with hc | hc
    · rw [neg_div, neg_eq_zero] at hc
      rcases div_eq_zero_iff.mp hc with hA | hB
      · rcases mul_eq_zero.mp hA with hA2 | hσ
        · rcases mul_eq_zero.mp hA2 with hA3 | h05
          · rcases mul_eq_zero.mp hA3 with h4 | hπ
            · norm_num at h4
            · exact Real.pi_ne_zero hπ
          · norm_num at h05
        · norm_num at hσ
      · rcases mul_eq_zero.mp hB with hB2 | h13
        · rcases mul_eq_zero.mp hB2 with hB3 | hε
          · rcases mul_eq_zero.mp hB3 with h4 | hπ
            · norm_num at h4
            · exact Real.pi_ne_zero hπ
          · rw [show EPSILON_0 = (8.854187817e-12 : ℝ) from rfl] at hε
            norm_num at hε
        · norm_num at h13
    · norm_num at hc

/-- C3 amended: inside either sphere of the TwoSpheres configuration
(distance to that center at most the radius 0.5) only that sphere's own
contribution is suppressed: its field contribution is zero and its
potential contribution is the constant surface value q/(4*pi*epsilon_0*0.5);
the other sphere still contributes its point-charge field and potential, so
the total field vanishes only where the point is inside both spheres, and
the potential is the surface constant plus the other sphere's point-charge
potential. -/
theorem two_spheres_inside_contributions (p : Vec3) (σ d ε : ℝ) (inv : Bool) :
    ((p - Vec3.mk (-d / 2) 0 0).norm ≤ 0.5 → 0.5 < (p - Vec3.mk (d / 2) 0 0).norm →
      TwoSpheres.E_point p σ d inv 20 ε
        = ((if inv then -(4 * Real.pi * (0.5:ℝ) ^ 2 * σ) else 4 * Real.pi * (0.5:ℝ) ^ 2 * σ)
            / (4 * Real.pi * ε * (p - Vec3.mk (d / 2) 0 0).norm ^ 3)) • (p - Vec3.mk (d / 2) 0 0) ∧
      TwoSpheres.compute_potential_two_spheres (Vec3.mk (-d / 2) 0 0) (Vec3.mk (d / 2) 0 0)
          (4 * Real.pi * (0.5:ℝ) ^ 2 * σ)
          (if inv then -(4 * Real.pi * (0.5:ℝ) ^ 2 * σ) else 4 * Real.pi * (0.5:ℝ) ^ 2 * σ)
          0.5 p ε
        = (4 * Real.pi * (0.5:ℝ) ^ 2 * σ) / (4 * Real.pi * ε * 0.5)
          + (if inv then -(4 * Real.pi * (0.5:ℝ) ^ 2 * σ) else 4 * Real.pi * (0.5:ℝ) ^ 2 * σ)
              / (4 * Real.pi * ε * (p - Vec3.mk (d / 2) 0 0).norm)) ∧
    (0.5 < (p - Vec3.mk (-d / 2) 0 0).norm → (p - Vec3.mk (d / 2) 0 0).norm ≤ 0.5 →
      TwoSpheres.E_point p σ d inv 20 ε
        = ((4 * Real.pi * (0.5:ℝ) ^ 2 * σ)
            / (4 * Real.pi * ε * (p - Vec3.mk (-d / 2) 0 0).norm ^ 3)) • (p - Vec3.mk (-d / 2) 0 0) ∧
      TwoSpheres.compute_potential_two_spheres (Vec3.mk (-d / 2) 0 0) (Vec3.mk (d / 2) 0 0)
          (4 * Real.pi * (0.5:ℝ) ^ 2 * σ)
          (if inv then -(4 * Real.pi * (0.5:ℝ) ^ 2 * σ) else 4 * Real.pi * (0.5:ℝ) ^ 2 * σ)
          0.5 p ε
        = (4 * Real.pi * (0.5:ℝ) ^ 2 * σ) / (4 * Real.pi * ε * (p - Vec3.mk (-d / 2) 0 0).norm)
          + (if inv then -(4 * Real.pi * (0.5:ℝ) ^ 2 * σ) else 4 * Real.pi * (0.5:ℝ) ^ 2 * σ)
              / (4 * Real.pi * ε * 0.5)) ∧
    ((p - Vec3.mk (-d / 2) 0 0).norm ≤ 0.5 → (p - Vec3.mk (d / 2) 0 0).norm ≤ 0.5 →
      TwoSpheres.E_point p σ d inv 20 ε = 0 ∧
      TwoSpheres.compute_potential_two_spheres (Vec3.mk (-d / 2) 0 0) (Vec3.mk (d / 2) 0 0)
          (4 * Real.pi * (0.5:ℝ) ^ 2 * σ)
          (if inv then -(4 * Real.pi * (0.5:ℝ) ^ 2 * σ) else 4 * Real.pi * (0.5:ℝ) ^ 2 * σ)
          0.5 p ε
        = (4 * Real.pi * (0.5:ℝ) ^ 2 * σ) / (4 * Real.pi * ε * 0.5)
          + (if inv then -(4 * Real.pi * (0.5:ℝ) ^ 2 * σ) else 4 * Real.pi * (0.5:ℝ) ^ 2 * σ)
              / (4 * Real.pi * ε * 0.5)) := by
  refine ⟨fun h1 h2 => ⟨?_, ?_⟩, fun h1 h2 => ⟨?_, ?_⟩, fun h1 h2 => ⟨?_, ?_⟩⟩
  · unfold TwoSpheres.E_point TwoSpheres.compute_field_two_spheres
    rw [if_neg (not_lt.mpr h1), if_pos h2, Vec3.zero_add_vec]
  · unfold TwoSpheres.compute_potential_two_spheres
    rw [if_neg (not_lt.mpr h1), if_pos h2]
  · unfold TwoSpheres.E_point TwoSpheres.compute_field_two_spheres
    rw [if_pos h1, if_neg (not_lt.mpr h2), Vec3.add_zero_vec]
  · unfold TwoSpheres.compute_potential_two_spheres
    rw [if_pos h1, if_neg (not_lt.mpr h2)]
  · unfold TwoSpheres.E_point TwoSpheres.compute_field_two_spheres
    rw [if_neg (not_lt.mpr h1), if_neg (not_lt.mpr h2), Vec3.add_zero_vec]
  · unfold TwoSpheres.compute_potential_two_spheres
    rw [if_neg (not_lt.mpr h1), if_neg (not_lt.mpr h2)]

/-- Witness for C3 (amended) at the center of the first sphere with
sigma = 1e-6, distance = 1, inverted second sphere: the field equals the
second sphere's point-charge contribution. -/
theorem two_spheres_inside_contributions_witness :
    TwoSpheres.E_point (Vec3.mk (-(1:ℝ)/2) 0 0) 1e-6 1 true 20 EPSILON_0
      = ((if (true : Bool) then -(4 * Real.pi * (0.5:ℝ) ^ 2 * (1e-6:ℝ))
          else 4 * Real.pi * (0.5:ℝ) ^ 2 * (1e-6:ℝ))
          / (4 * Real.pi * EPSILON_0
              * (Vec3.mk (-(1:ℝ)/2) 0 0 - Vec3.mk ((1:ℝ) / 2) 0 0).norm ^ 3))
        • (Vec3.mk (-(1:ℝ)/2) 0 0 - Vec3.mk ((1:ℝ) / 2) 0 0) := by
  have h1 : (Vec3.mk (-(1:ℝ)/2) 0 0 - Vec3.mk (-(1:ℝ) / 2) 0 0).norm ≤ 0.5 := by
    rw [show Vec3.mk (-(1:ℝ)/2) 0 0 - Vec3.mk (-(1:ℝ) / 2) 0 0 = Vec3.mk 0 0 0 from by
          simp only [Vec3.sub_def, Vec3.mk.injEq]; norm_num,
        Vec3.norm_zero]
    norm_num
  have h2 : (0.5:ℝ) < (Vec3.mk (-(1:ℝ)/2) 0 0 - Vec3.mk ((1:ℝ) / 2) 0 0).norm := by
    rw [show Vec3.mk (-(1:ℝ)/2) 0 0 - Vec3.mk ((1:ℝ) / 2) 0 0 = Vec3.mk (-1) 0 0 from by
          simp only [Vec3.sub_def, Vec3.mk.injEq]; norm_num,
        Vec3.norm_xAxis]
    rw [abs_neg, abs_one]; norm_num
  exact ((two_spheres_inside_contributions
    (Vec3.mk (-(1:ℝ)/2) 0 0) 1e-6 1 EPSILON_0 true).1 h1 h2).1
